import Mathlib

/-!
Shallow embedding of `src/app.py` (Travel-Agent-Flowise), a Flask relay with
two request handlers:

* `ask_bot` (`POST /ask`): validates a `question` form field and an optional
  `image` file part, encodes the image as a base64 data URI, posts a JSON
  payload to the Flowise prediction backend, and normalises the reply.
* `send_itinerary` (`POST /send_itinerary`): validates a JSON body and sends
  a plain-text email over SMTP.

JSON values are modelled by the inductive `Json`; Python truthiness of decoded
JSON values by `Json.truthy`.  The external world (the `requests.post` call,
`secure_filename`, `mimetypes.guess_type`, the per-request `uuid.uuid4()`
draw, and the SMTP session) is passed in as explicit parameters, so each
handler is a pure function from its request and environment to an outcome
recording the payload sent to the backend (if any), the messages logged, and
the HTTP response produced (`none` standing for an uncaught Python exception,
which Flask converts to a generic 500 error page, not a handler response).
-/

/-- JSON values (numbers restricted to integers, enough for the model). -/
inductive Json where
  | null : Json
  | bool (b : Bool) : Json
  | num (n : Int) : Json
  | str (s : String) : Json
  | arr (xs : List Json) : Json
  | obj (kvs : List (String × Json)) : Json

/-- Python truthiness of a decoded JSON value: `None`, `False`, `0`, `""`,
`[]` and `{}` are falsy, everything else truthy. -/
def Json.truthy : Json → Bool
  | .null => false
  | .bool b => b
  | .num n => n != 0
  | .str s => s != ""
  | .arr xs => !xs.isEmpty
  | .obj kvs => !kvs.isEmpty

/-- `dict.get(k)`: first value bound to key `k`, or `none` (Python `None`).
Decoded JSON objects have distinct keys, so first-match is the dict lookup. -/
def lookupKV : List (String × Json) → String → Option Json
  | [], _ => none
  | (k, v) :: rest, key => if k = key then some v else lookupKV rest key

/-- Python `x or y` on an optional JSON value `x` (as in
`flowise_data.get("text") or ...`): keep `x`'s value if present and truthy,
otherwise evaluate to `y`. -/
def pyOr (x : Option Json) (y : Json) : Json :=
  match x with
  | some v => if v.truthy then v else y
  | none => y

/-- Truthiness of an optional string (Python `if not s` on a form field or
environment variable: `None` and `""` are falsy). -/
def strTruthy : Option String → Bool
  | none => false
  | some s => s != ""

/-- Truthiness of an optional JSON value (Python `if not recipient`). -/
def optTruthy : Option Json → Bool
  | none => false
  | some v => v.truthy

/-- The allow-set of `app.py` line 32: `ALLOWED_EXT`. -/
def ALLOWED_EXT : List String := ["png", "jpg", "jpeg", "gif", "bmp", "webp"]

/-- Python `filename.rsplit(".", 1)[1]`: the suffix after the last dot,
computed on the character list (characters from the end up to the first dot
met, restored to their original order). -/
def extAfterLastDot (filename : String) : String :=
  String.mk ((filename.data.reverse.takeWhile (fun c => c ≠ '.')).reverse)

/-- Python `str.lower()`, applied per character. -/
def lowerAscii (s : String) : String :=
  String.mk (s.data.map Char.toLower)

/-- `allowed_file` (`app.py` lines 36-37):
`"." in filename and filename.rsplit(".", 1)[1].lower() in ALLOWED_EXT`.
The dot test is membership in the character list; the second conjunct is
only evaluated when a dot is present (Python short-circuit `and`). -/
def allowed_file (filename : String) : Bool :=
  filename.data.contains '.' && lowerAscii (extAfterLastDot filename) ∈ ALLOWED_EXT

/-- The base64 alphabet. -/
def base64Chars : List Char :=
  "ABCDEFGHIJKLMNOPQRSTUVWXYZabcdefghijklmnopqrstuvwxyz0123456789+/".toList

/-- `base64.b64encode` on a byte list (bytes as naturals below 256),
producing the standard padded base64 text. -/
def base64Encode : List Nat → String
  | [] => ""
  | [a] =>
    String.mk [base64Chars.getD (a / 4) 'A', base64Chars.getD (a % 4 * 16) 'A'] ++ "=="
  | [a, b] =>
    String.mk [base64Chars.getD (a / 4) 'A', base64Chars.getD (a % 4 * 16 + b / 16) 'A',
      base64Chars.getD (b % 16 * 4) 'A'] ++ "="
  | a :: b :: c :: rest =>
    String.mk [base64Chars.getD (a / 4) 'A', base64Chars.getD (a % 4 * 16 + b / 16) 'A',
      base64Chars.getD (b % 16 * 4 + c / 64) 'A', base64Chars.getD (c % 64) 'A'] ++
      base64Encode rest

/-- A multipart file part as Flask exposes it: `file.filename`,
`file.mimetype` (possibly empty) and the raw bytes. -/
structure FilePart where
  filename : String
  mimetype : String
  content : List Nat

/-- The `/ask` request: `request.form.get("question")` and
`request.files.get("image")`. -/
structure AskRequest where
  question : Option String
  image : Option FilePart

/-- Outcome of `requests.post` on the prediction endpoint: a
`requests.RequestException` with its message, or a response carrying the
backend status, the raw body text, and the result of `resp.json()`
(`none` when the body is not parseable as JSON). -/
inductive BackendResult where
  | exn (detail : String) : BackendResult
  | resp (status : Nat) (text : String) (parsed : Option Json) : BackendResult

/-- The external collaborators of the `/ask` handler: werkzeug's
`secure_filename`, `mimetypes.guess_type`, the `str(uuid.uuid4())` value
drawn for this request (a fresh token per request), and the backend call. -/
structure AskEnv where
  secureFilename : String → String
  guessType : String → Option String
  freshSessionId : String
  backend : Json → BackendResult

/-- An HTTP response produced by a handler: status code and JSON body. -/
structure HttpResponse where
  status : Nat
  body : Json

/-- Observable outcome of one `/ask` request: the JSON payload posted to the
backend (`none` when no outbound call was made), the server-side log
messages, and the handler's response (`none` when an uncaught Python
exception escapes the handler). -/
structure AskOutcome where
  sent : Option Json
  log : List String
  result : Option HttpResponse

/-- The payload of `app.py` lines 90-96: question, uploads array, and a
fresh `sessionId` under `overrideConfig`. -/
def askPayload (sessionId : String) (question : String) (uploads : List Json) : Json :=
  .obj [("question", .str question),
        ("uploads", .arr uploads),
        ("overrideConfig", .obj [("sessionId", .str sessionId)])]

/-- The upload entry of `app.py` lines 70-87: the secured filename, the MIME
type (`file.mimetype or mimetypes.guess_type(filename)[0] or
"application/octet-stream"`), and the base64 data URI.  The transient write
of the bytes to the uploads folder (lines 72-77) is a side effect with no
bearing on the response and is not modelled. -/
def encodeUpload (env : AskEnv) (f : FilePart) : Json :=
  let filename := env.secureFilename f.filename
  let mime :=
    if f.mimetype != "" then f.mimetype
    else match env.guessType filename with
      | some m => if m != "" then m else "application/octet-stream"
      | none => "application/octet-stream"
  let dataUri := "data:" ++ mime ++ ";base64," ++ base64Encode f.content
  .obj [("type", .str "file"), ("name", .str filename),
        ("data", .str dataUri), ("mime", .str mime)]

/-- The backend phase of `ask_bot` (`app.py` lines 102-122): post the
payload; on `RequestException` log and answer 502; on a non-JSON body log the
first 500 characters and answer 500 with the full raw text; otherwise
normalise `flowise_data.get("text") or flowise_data.get("answer") or
flowise_data` and wrap it, mirroring the backend status below 400 and
reporting 200 otherwise.  When the decoded body is not a JSON object,
`.get` raises `AttributeError` (modelled as result `none`). -/
def askForward (env : AskEnv) (payload : Json) : AskOutcome :=
  match env.backend payload with
  | .exn d =>
    ⟨some payload, ["Failed to call Flowise prediction endpoint"],
      some ⟨502, .obj [("error", .str "failed to reach Flowise"), ("detail", .str d)]⟩⟩
  | .resp _ text none =>
    ⟨some payload, ["Non-JSON response from Flowise: " ++ text.take 500],
      some ⟨500, .obj [("error", .str "invalid response from flowise"), ("raw", .str text)]⟩⟩
  | .resp status _ (some data) =>
    match data with
    | .obj kvs =>
      let answer := pyOr (lookupKV kvs "text") (pyOr (lookupKV kvs "answer") data)
      ⟨some payload, [],
        some ⟨if status < 400 then status else 200,
          .obj [("success", .bool true), ("answer", answer), ("raw", data)]⟩⟩
    | _ => ⟨some payload, [], none⟩

/-- `ask_bot` (`app.py` lines 56-122).  Validation order follows the source:
missing or empty `question` answers 400 before anything else; a file part
with a non-empty filename and a disallowed extension answers 400 before any
outbound call; otherwise the payload is built and forwarded. -/
def ask_bot (env : AskEnv) (req : AskRequest) : AskOutcome :=
  match req.question with
  | none => ⟨none, [], some ⟨400, .obj [("error", .str "question field is required")]⟩⟩
  | some q =>
    if q = "" then
      ⟨none, [], some ⟨400, .obj [("error", .str "question field is required")]⟩⟩
    else
      let ups : Except HttpResponse (List Json) :=
        match req.image with
        | none => .ok []
        | some f =>
          if f.filename = "" then .ok []
          else if allowed_file f.filename then .ok [encodeUpload env f]
          else .error ⟨400, .obj [("error", .str "file type not allowed")]⟩
      match ups with
      | .error r => ⟨none, [], some r⟩
      | .ok uploads => askForward env (askPayload env.freshSessionId q uploads)

/-- Observable outcome of one `/send_itinerary` request: whether an SMTP
session was opened, the log messages, and the handler's response (`none`
when an uncaught Python exception escapes the handler). -/
structure SendOutcome where
  smtpAttempted : Bool
  log : List String
  result : Option HttpResponse

/-- `send_itinerary` (`app.py` lines 130-156).  `reqJson` is the value of
`request.get_json(force=True, silent=True)`: `none` when the body is absent
or not parseable as JSON.  The source applies `or {}`, so a missing or falsy
body becomes the empty object.  `smtp` abstracts the SMTP session of lines
150-152: `Except.ok` when login and send succeed, `Except.error` with the
exception text otherwise.  A decoded body that is a truthy non-object makes
`data.get("email")` raise `AttributeError` (modelled as result `none`). -/
def send_itinerary (gmailUser gmailPass : Option String) (smtp : Except String Unit)
    (reqJson : Option Json) : SendOutcome :=
  let data : Json :=
    match reqJson with
    | some j => if j.truthy then j else .obj []
    | none => .obj []
  match data with
  | .obj kvs =>
    let recipient := lookupKV kvs "email"
    if optTruthy recipient = false then
      ⟨false, [], some ⟨400, .obj [("error", .str "email is required")]⟩⟩
    else if strTruthy gmailUser = false || strTruthy gmailPass = false then
      ⟨false, ["Email credentials not configured on server environment"],
        some ⟨500, .obj [("error", .str "email credentials not configured")]⟩⟩
    else
      match smtp with
      | .ok _ =>
        ⟨true, [], some ⟨200, .obj [("success", .bool true), ("status", .str "Email sent")]⟩⟩
      | .error e =>
        ⟨true, ["Failed to send itinerary email"],
          some ⟨500, .obj [("error", .str "failed to send email"), ("detail", .str e)]⟩⟩
  | _ => ⟨false, [], none⟩

/-- The `/health` handler (`app.py` lines 162-164). -/
def health : HttpResponse := ⟨200, .obj [("status", .str "ok")]⟩

/-- Session identifier recorded inside a payload sent to the backend
(`payload["overrideConfig"]["sessionId"]`). -/
def sessionIdOf (payload : Json) : Option String :=
  match payload with
  | .obj kvs =>
    match lookupKV kvs "overrideConfig" with
    | some (.obj okvs) =>
      match lookupKV okvs "sessionId" with
      | some (.str s) => some s
      | _ => none
    | _ => none
  | _ => none

/-- The `uploads` field of a payload sent to the backend. -/
def uploadsOf (payload : Json) : Option Json :=
  match payload with
  | .obj kvs => lookupKV kvs "uploads"
  | _ => none

/-- The `answer` field of the JSON body of the handler's response, when the
handler responded with a JSON object body. -/
def AskOutcome.answerField (o : AskOutcome) : Option Json :=
  match o.result with
  | some r =>
    match r.body with
    | .obj kvs => lookupKV kvs "answer"
    | _ => none
  | none => none

theorem askForward_sent (env : AskEnv) (p : Json) : (askForward env p).sent = some p := by
  unfold askForward
  cases env.backend p with
  | exn d => rfl
  | resp st t parsed =>
    cases parsed with
    | none => rfl
    | some data => cases data <;> rfl

theorem sessionIdOf_askPayload (s q : String) (u : List Json) :
    sessionIdOf (askPayload s q u) = some s := rfl

theorem uploadsOf_askPayload (s q : String) (u : List Json) :
    uploadsOf (askPayload s q u) = some (.arr u) := rfl

/-- Every payload that `ask_bot` sends to the backend is an `askPayload`
for this request's fresh session identifier. -/
theorem ask_sent_shape (env : AskEnv) (req : AskRequest) (p : Json)
    (hp : (ask_bot env req).sent = some p) :
    ∃ q uploads, p = askPayload env.freshSessionId q uploads := by
  obtain ⟨oq, img⟩ := req
  cases oq with
  | none => simp [ask_bot] at hp
  | some q =>
    by_cases hq : q = ""
    · simp [ask_bot, hq] at hp
    · cases img with
      | none =>
        have h1 : ask_bot env ⟨some q, none⟩ =
            askForward env (askPayload env.freshSessionId q []) := by
          simp [ask_bot, hq]
        rw [h1, askForward_sent] at hp
        exact ⟨q, [], (Option.some.injEq _ _ ▸ hp).symm⟩
      | some f =>
        by_cases hf : f.filename = ""
        · have h1 : ask_bot env ⟨some q, some f⟩ =
              askForward env (askPayload env.freshSessionId q []) := by
            simp [ask_bot, hq, hf]
          rw [h1, askForward_sent] at hp
          exact ⟨q, [], (Option.some.injEq _ _ ▸ hp).symm⟩
        · by_cases ha : allowed_file f.filename
          · have h1 : ask_bot env ⟨some q, some f⟩ =
                askForward env (askPayload env.freshSessionId q [encodeUpload env f]) := by
              simp [ask_bot, hq, hf, ha]
            rw [h1, askForward_sent] at hp
            exact ⟨q, [encodeUpload env f], (Option.some.injEq _ _ ▸ hp).symm⟩
          · have h1 : (ask_bot env ⟨some q, some f⟩).sent = none := by
              simp [ask_bot, hq, hf, ha]
            rw [h1] at hp
            exact absurd hp (by simp)

/-- With no image part, the sent payload (when one exists) carries the
question and an empty uploads list. -/
theorem ask_sent_noImage (env : AskEnv) (oq : Option String) (p : Json)
    (hp : (ask_bot env ⟨oq, none⟩).sent = some p) :
    ∃ q, oq = some q ∧ p = askPayload env.freshSessionId q [] := by
  cases oq with
  | none => simp [ask_bot] at hp
  | some q =>
    by_cases hq : q = ""
    · simp [ask_bot, hq] at hp
    · have h1 : ask_bot env ⟨some q, none⟩ =
          askForward env (askPayload env.freshSessionId q []) := by
        simp [ask_bot, hq]
      rw [h1, askForward_sent] at hp
      exact ⟨q, rfl, (Option.some.injEq _ _ ▸ hp).symm⟩

/-- Full description of one `/ask` outcome when the backend responds with a
parseable JSON object body. -/
theorem ask_bot_object_reply (env : AskEnv) (q : String) (st : Nat) (text : String)
    (kvs : List (String × Json)) (hq : q ≠ "")
    (hb : env.backend (askPayload env.freshSessionId q []) = .resp st text (some (.obj kvs))) :
    ask_bot env ⟨some q, none⟩ =
      ⟨some (askPayload env.freshSessionId q []), [],
        some ⟨if st < 400 then st else 200,
          .obj [("success", .bool true),
                ("answer", pyOr (lookupKV kvs "text") (pyOr (lookupKV kvs "answer") (.obj kvs))),
                ("raw", .obj kvs)]⟩⟩ := by
  simp [ask_bot, hq, askForward, hb]

/-- Claim C4: for every `/ask` request whose `question` form field is
missing or empty, the handler answers 400 with an `error` field, and no
outbound call to the prediction backend is attempted (`sent = none`),
whatever image part accompanies the request. -/
theorem C4_missing_question_400 (env : AskEnv) (img : Option FilePart) :
    ask_bot env ⟨none, img⟩ =
      ⟨none, [], some ⟨400, .obj [("error", .str "question field is required")]⟩⟩ ∧
    ask_bot env ⟨some "", img⟩ =
      ⟨none, [], some ⟨400, .obj [("error", .str "question field is required")]⟩⟩ :=
  ⟨rfl, rfl⟩

/-- Claim C5: for every `/ask` request with a non-empty question and an
image part with a non-empty filename, if the filename has no extension (no
dot) or its extension (the suffix after the last dot, compared
case-insensitively) is not in the allow-set, the handler answers 400 with an
`error` field and never contacts the backend. -/
theorem C5_bad_extension_400 (env : AskEnv) (q : String) (f : FilePart)
    (hq : q ≠ "") (hf : f.filename ≠ "")
    (hext : f.filename.data.contains '.' = false ∨
      lowerAscii (extAfterLastDot f.filename) ∉ ALLOWED_EXT) :
    ask_bot env ⟨some q, some f⟩ =
      ⟨none, [], some ⟨400, .obj [("error", .str "file type not allowed")]⟩⟩ := by
  have hall : allowed_file f.filename = false := by
    unfold allowed_file
    rcases hext with h | h
    · rw [h]; rfl
    · rw [decide_eq_false h]
      exact Bool.and_false _
  simp [ask_bot, hq, hf, hall]

/-- Witness for C5 at the concrete input `question = "hi"`,
`image = malware.exe`. -/
theorem C5_bad_extension_400_witness :
    (("hi" : String) ≠ "") ∧ (("malware.exe" : String) ≠ "") ∧
    ((("malware.exe" : String).data.contains '.' = false ∨
      lowerAscii (extAfterLastDot "malware.exe") ∉ ALLOWED_EXT)) ∧
    ask_bot ⟨id, fun _ => none, "sid", fun _ => .exn "unused"⟩
        ⟨some "hi", some ⟨"malware.exe", "", []⟩⟩ =
      ⟨none, [], some ⟨400, .obj [("error", .str "file type not allowed")]⟩⟩ :=
  ⟨by decide, by decide, Or.inr (by decide),
    C5_bad_extension_400 ⟨id, fun _ => none, "sid", fun _ => .exn "unused"⟩ "hi"
      ⟨"malware.exe", "", []⟩ (by decide) (by decide) (Or.inr (by decide))⟩

/-- Claim C6: for every `/ask` request with a non-empty question where the
outbound call raises a transport failure, the handler answers 502 with a
JSON body containing an `error` field and a `detail` field and no `raw`
field. -/
theorem C6_unreachable_502 (env : AskEnv) (q d : String) (hq : q ≠ "")
    (hb : env.backend (askPayload env.freshSessionId q []) = .exn d) :
    (ask_bot env ⟨some q, none⟩).result =
      some ⟨502, .obj [("error", .str "failed to reach Flowise"), ("detail", .str d)]⟩ ∧
    lookupKV [("error", Json.str "failed to reach Flowise"), ("detail", Json.str d)] "raw" =
      none := by
  constructor
  · simp [ask_bot, hq, askForward, hb]
  · rfl

/-- Witness for C6 at the concrete input `question = "hi"` and a backend
raising `connection refused`. -/
theorem C6_unreachable_502_witness :
    (("hi" : String) ≠ "") ∧
    (AskEnv.backend ⟨id, fun _ => none, "sid", fun _ => .exn "connection refused"⟩
        (askPayload "sid" "hi" []) = .exn "connection refused") ∧
    (ask_bot ⟨id, fun _ => none, "sid", fun _ => .exn "connection refused"⟩
        ⟨some "hi", none⟩).result =
      some ⟨502, .obj [("error", .str "failed to reach Flowise"),
                       ("detail", .str "connection refused")]⟩ :=
  ⟨by decide, rfl,
    (C6_unreachable_502 ⟨id, fun _ => none, "sid", fun _ => .exn "connection refused"⟩
      "hi" "connection refused" (by decide) rfl).1⟩

/-- Claim C10: for every `/send_itinerary` request whose body is absent or
not parseable as JSON, the handler behaves exactly as on an empty-object
body and answers 400 with `error = "email is required"`, attempting no SMTP
connection and raising no unhandled fault. -/
theorem C10_unparseable_body_400 (user pass : Option String) (smtp : Except String Unit) :
    send_itinerary user pass smtp none =
      ⟨false, [], some ⟨400, .obj [("error", .str "email is required")]⟩⟩ ∧
    send_itinerary user pass smtp none = send_itinerary user pass smtp (some (.obj [])) :=
  ⟨rfl, rfl⟩

/-- The 501-character raw body used to exhibit (un)truncation. -/
def longRaw : String := String.mk (List.replicate 501 'a')

/-- Counterexample to claim C1 as stated: the fallback of `app.py` line 116
is by Python truthiness, not by field presence.  For the string `X = ""`,
the backend body `{"text": ""}` yields `answer` equal to the whole decoded
body, not to `""`; and a parseable non-object body (`[1, 2]`) makes the
handler raise instead of normalising at all. -/
theorem C1_falsy_text_counterexample :
    (ask_bot ⟨id, fun _ => none, "sid", fun _ => .resp 200 "" (some (.obj [("text", .str "")]))⟩
        ⟨some "hi", none⟩).result =
      some ⟨200, .obj [("success", .bool true),
                       ("answer", .obj [("text", .str "")]),
                       ("raw", .obj [("text", .str "")])]⟩ ∧
    Json.obj [("text", Json.str "")] ≠ Json.str "" ∧
    (ask_bot ⟨id, fun _ => none, "sid", fun _ => .resp 200 "[1, 2]" (some (.arr [.num 1, .num 2]))⟩
        ⟨some "hi", none⟩).result = none :=
  ⟨rfl, fun h => Json.noConfusion h, rfl⟩

/-- Claim C1 as amended: for every backend response whose parseable JSON
body is a JSON object, the normalized answer follows the truthiness-ordered
fallback: the value of `text` when present with a truthy value, otherwise
the value of `answer` when present with a truthy value, otherwise the
entire decoded body. -/
theorem C1_answer_fallback (env : AskEnv) (q : String) (st : Nat) (text : String)
    (kvs : List (String × Json)) (hq : q ≠ "")
    (hb : env.backend (askPayload env.freshSessionId q []) = .resp st text (some (.obj kvs))) :
    (∀ v, lookupKV kvs "text" = some v → v.truthy = true →
      (ask_bot env ⟨some q, none⟩).answerField = some v) ∧
    (optTruthy (lookupKV kvs "text") = false →
      ∀ w, lookupKV kvs "answer" = some w → w.truthy = true →
        (ask_bot env ⟨some q, none⟩).answerField = some w) ∧
    (optTruthy (lookupKV kvs "text") = false →
      optTruthy (lookupKV kvs "answer") = false →
        (ask_bot env ⟨some q, none⟩).answerField = some (.obj kvs)) := by
  have hmain := ask_bot_object_reply env q st text kvs hq hb
  refine ⟨?_, ?_, ?_⟩
  · intro v hv htr
    rw [hmain]
    simp [AskOutcome.answerField, lookupKV, pyOr, hv, htr]
  · intro hft w hw hwt
    rw [hmain]
    cases hx : lookupKV kvs "text" with
    | none => simp [AskOutcome.answerField, lookupKV, pyOr, hx, hw, hwt]
    | some u =>
      rw [hx] at hft
      simp only [optTruthy] at hft
      simp [AskOutcome.answerField, lookupKV, pyOr, hx, hft, hw, hwt]
  · intro hft hfa
    rw [hmain]
    cases hx : lookupKV kvs "text" with
    | none =>
      cases hy : lookupKV kvs "answer" with
      | none => simp [AskOutcome.answerField, lookupKV, pyOr, hx, hy]
      | some u =>
        rw [hy] at hfa
        simp only [optTruthy] at hfa
        simp [AskOutcome.answerField, lookupKV, pyOr, hx, hy, hfa]
    | some u =>
      rw [hx] at hft
      simp only [optTruthy] at hft
      cases hy : lookupKV kvs "answer" with
      | none => simp [AskOutcome.answerField, lookupKV, pyOr, hx, hy, hft]
      | some w =>
        rw [hy] at hfa
        simp only [optTruthy] at hfa
        simp [AskOutcome.answerField, lookupKV, pyOr, hx, hy, hft, hfa]

/-- Witness for the amended C1 at the concrete backend body
`{"text": "hello"}`. -/
theorem C1_answer_fallback_witness :
    (("hi" : String) ≠ "") ∧
    (AskEnv.backend ⟨id, fun _ => none, "sid",
        fun _ => .resp 200 "" (some (.obj [("text", Json.str "hello")]))⟩
      (askPayload "sid" "hi" []) = .resp 200 "" (some (.obj [("text", Json.str "hello")]))) ∧
    (ask_bot ⟨id, fun _ => none, "sid",
        fun _ => .resp 200 "" (some (.obj [("text", Json.str "hello")]))⟩
      ⟨some "hi", none⟩).answerField = some (Json.str "hello") :=
  ⟨by decide, rfl,
    (C1_answer_fallback ⟨id, fun _ => none, "sid",
        fun _ => .resp 200 "" (some (.obj [("text", Json.str "hello")]))⟩
      "hi" 200 "" [("text", Json.str "hello")] (by decide) rfl).1 (Json.str "hello") rfl rfl⟩

/-- Counterexample to claim C2 as stated: for a 501-character non-JSON
backend body, the client-visible `raw` field holds the full untruncated
text, while the server log holds only its first 500 characters — the
opposite of the claimed truncation sides. -/
theorem C2_untruncated_counterexample :
    (ask_bot ⟨id, fun _ => none, "sid", fun _ => .resp 200 longRaw none⟩
        ⟨some "hi", none⟩).result =
      some ⟨500, .obj [("error", .str "invalid response from flowise"), ("raw", .str longRaw)]⟩ ∧
    longRaw.take 500 ≠ longRaw ∧
    (ask_bot ⟨id, fun _ => none, "sid", fun _ => .resp 200 longRaw none⟩
        ⟨some "hi", none⟩).log =
      ["Non-JSON response from Flowise: " ++ longRaw.take 500] := by
  refine ⟨rfl, ?_, rfl⟩
  intro h
  have h2 := congrArg (fun s => s.1.length) h
  simp only [String.data_take, List.length_take, longRaw, List.length_replicate] at h2
  omega

/-- Claim C2 as amended: for every backend response whose body is not
parseable as JSON and every non-empty question, `/ask` answers 500 with the
full raw backend text in the JSON body, logs the first 500 characters of
the raw text server-side, and raises no unhandled fault. -/
theorem C2_nonjson_500 (env : AskEnv) (q : String) (st : Nat) (text : String)
    (hq : q ≠ "")
    (hb : env.backend (askPayload env.freshSessionId q []) = .resp st text none) :
    ask_bot env ⟨some q, none⟩ =
      ⟨some (askPayload env.freshSessionId q []),
        ["Non-JSON response from Flowise: " ++ text.take 500],
        some ⟨500, .obj [("error", .str "invalid response from flowise"),
                         ("raw", .str text)]⟩⟩ := by
  simp [ask_bot, hq, askForward, hb]

/-- Witness for the amended C2 at the concrete malformed body `not json`. -/
theorem C2_nonjson_500_witness :
    (("hi" : String) ≠ "") ∧
    (AskEnv.backend ⟨id, fun _ => none, "sid", fun _ => .resp 200 "not json" none⟩
      (askPayload "sid" "hi" []) = .resp 200 "not json" none) ∧
    ask_bot ⟨id, fun _ => none, "sid", fun _ => .resp 200 "not json" none⟩
        ⟨some "hi", none⟩ =
      ⟨some (askPayload "sid" "hi" []),
        ["Non-JSON response from Flowise: " ++ ("not json" : String).take 500],
        some ⟨500, .obj [("error", .str "invalid response from flowise"),
                         ("raw", .str "not json")]⟩⟩ :=
  ⟨by decide, rfl,
    C2_nonjson_500 ⟨id, fun _ => none, "sid", fun _ => .resp 200 "not json" none⟩
      "hi" 200 "not json" (by decide) rfl⟩

/-- Counterexample to claim C3 as stated: the backend body `[1, 2]` is
parseable JSON, yet the handler produces no response at all (the `.get`
call of line 116 raises), so the outward status is neither mirrored nor
wrapped in the success envelope. -/
theorem C3_nonobject_counterexample :
    (ask_bot ⟨id, fun _ => none, "sid", fun _ => .resp 200 "[1, 2]" (some (.arr [.num 1, .num 2]))⟩
        ⟨some "hello", none⟩).result = none :=
  rfl

/-- Claim C3 as amended: for every backend response whose parseable JSON
body is a JSON object, the outward status equals the backend status when it
is below 400 and equals 200 otherwise, and the body is the success envelope
`{success: true, answer, raw}`. -/
theorem C3_status_mapping (env : AskEnv) (q : String) (st : Nat) (text : String)
    (kvs : List (String × Json)) (hq : q ≠ "")
    (hb : env.backend (askPayload env.freshSessionId q []) = .resp st text (some (.obj kvs))) :
    ∃ a, (ask_bot env ⟨some q, none⟩).result =
      some ⟨if st < 400 then st else 200,
        .obj [("success", .bool true), ("answer", a), ("raw", .obj kvs)]⟩ :=
  ⟨pyOr (lookupKV kvs "text") (pyOr (lookupKV kvs "answer") (.obj kvs)),
    by rw [ask_bot_object_reply env q st text kvs hq hb]⟩

/-- Witness for the amended C3: a 201 backend status is mirrored, a 503
backend status is reported as 200, both with the success envelope. -/
theorem C3_status_mapping_witness :
    (("hi" : String) ≠ "") ∧
    (∃ a, (ask_bot ⟨id, fun _ => none, "sid",
        fun _ => .resp 201 "" (some (.obj [("answer", Json.str "Y")]))⟩
      ⟨some "hi", none⟩).result =
        some ⟨201, .obj [("success", .bool true), ("answer", a),
                         ("raw", .obj [("answer", Json.str "Y")])]⟩) ∧
    (∃ a, (ask_bot ⟨id, fun _ => none, "sid",
        fun _ => .resp 503 "" (some (.obj [("answer", Json.str "Y")]))⟩
      ⟨some "hi", none⟩).result =
        some ⟨200, .obj [("success", .bool true), ("answer", a),
                         ("raw", .obj [("answer", Json.str "Y")])]⟩) :=
  by
  refine ⟨by decide, ?_, ?_⟩
  · simpa using C3_status_mapping ⟨id, fun _ => none, "sid",
        fun _ => .resp 201 "" (some (.obj [("answer", Json.str "Y")]))⟩
      "hi" 201 "" [("answer", Json.str "Y")] (by decide) rfl
  · simpa using C3_status_mapping ⟨id, fun _ => none, "sid",
        fun _ => .resp 503 "" (some (.obj [("answer", Json.str "Y")]))⟩
      "hi" 503 "" [("answer", Json.str "Y")] (by decide) rfl

/-- Claim C7: for every `/send_itinerary` request whose JSON object body
carries a (truthy) recipient `email`, if either configured sender
credential is falsy (unset or empty), the handler answers 500 with exactly
`{error: "email credentials not configured"}` and opens no SMTP session;
and the recipient check precedes the credentials check: a body without a
recipient answers 400 whatever the credentials are. -/
theorem C7_credentials_500 :
    (∀ (user pass : Option String) (smtp : Except String Unit) (kvs : List (String × Json)),
      optTruthy (lookupKV kvs "email") = true →
      strTruthy user = false ∨ strTruthy pass = false →
      send_itinerary user pass smtp (some (.obj kvs)) =
        ⟨false, ["Email credentials not configured on server environment"],
          some ⟨500, .obj [("error", .str "email credentials not configured")]⟩⟩) ∧
    (∀ (user pass : Option String) (smtp : Except String Unit) (kvs : List (String × Json)),
      optTruthy (lookupKV kvs "email") = false →
      send_itinerary user pass smtp (some (.obj kvs)) =
        ⟨false, [], some ⟨400, .obj [("error", .str "email is required")]⟩⟩) := by
  constructor
  · intro user pass smtp kvs hmail hcred
    cases kvs with
    | nil => simp [lookupKV, optTruthy] at hmail
    | cons kv rest =>
      rcases hcred with h | h <;>
        simp [send_itinerary, Json.truthy, List.isEmpty, hmail, h]
  · intro user pass smtp kvs hmail
    cases kvs with
    | nil => simp [send_itinerary, Json.truthy, lookupKV, optTruthy]
    | cons kv rest =>
      simp [send_itinerary, Json.truthy, List.isEmpty, hmail]

/-- Witness for C7 at the concrete inputs `{"email": "a@b.c"}` with
`GMAIL_USER` unset, and the empty body with the same credentials. -/
theorem C7_credentials_500_witness :
    (optTruthy (lookupKV [("email", Json.str "a@b.c")] "email") = true) ∧
    (strTruthy none = false ∨ strTruthy (some "p") = false) ∧
    send_itinerary none (some "p") (.ok ()) (some (.obj [("email", Json.str "a@b.c")])) =
      ⟨false, ["Email credentials not configured on server environment"],
        some ⟨500, .obj [("error", .str "email credentials not configured")]⟩⟩ ∧
    (optTruthy (lookupKV ([] : List (String × Json)) "email") = false) ∧
    send_itinerary none (some "p") (.ok ()) (some (.obj [])) =
      ⟨false, [], some ⟨400, .obj [("error", .str "email is required")]⟩⟩ := by
  refine ⟨rfl, Or.inl rfl, ?_, rfl, ?_⟩
  · exact C7_credentials_500.1 none (some "p") (.ok ()) [("email", Json.str "a@b.c")]
      rfl (Or.inl rfl)
  · exact C7_credentials_500.2 none (some "p") (.ok ()) [] rfl

/-- Claim C8: every payload `/ask` sends to the backend carries under
`overrideConfig.sessionId` exactly the fresh token drawn for that request
(the model's stand-in for `str(uuid.uuid4())`, which is generated inside
the handler and stored nowhere); two calls whose fresh tokens differ send
observably distinct session identifiers. -/
theorem C8_fresh_session :
    (∀ (env : AskEnv) (req : AskRequest) (p : Json),
      (ask_bot env req).sent = some p → sessionIdOf p = some env.freshSessionId) ∧
    (∀ (env1 env2 : AskEnv) (req1 req2 : AskRequest) (p1 p2 : Json),
      (ask_bot env1 req1).sent = some p1 → (ask_bot env2 req2).sent = some p2 →
      env1.freshSessionId ≠ env2.freshSessionId →
      sessionIdOf p1 ≠ sessionIdOf p2) := by
  have hA : ∀ (env : AskEnv) (req : AskRequest) (p : Json),
      (ask_bot env req).sent = some p → sessionIdOf p = some env.freshSessionId := by
    intro env req p hp
    obtain ⟨q, uploads, hpe⟩ := ask_sent_shape env req p hp
    rw [hpe, sessionIdOf_askPayload]
  refine ⟨hA, ?_⟩
  intro env1 env2 req1 req2 p1 p2 hp1 hp2 hne
  rw [hA env1 req1 p1 hp1, hA env2 req2 p2 hp2]
  simp [hne]

/-- Witness for C8: two concrete calls with fresh tokens `s1` and `s2`. -/
theorem C8_fresh_session_witness :
    ((ask_bot ⟨id, fun _ => none, "s1", fun _ => .exn "x"⟩ ⟨some "hi", none⟩).sent =
      some (askPayload "s1" "hi" [])) ∧
    ((ask_bot ⟨id, fun _ => none, "s2", fun _ => .exn "x"⟩ ⟨some "hi", none⟩).sent =
      some (askPayload "s2" "hi" [])) ∧
    (("s1" : String) ≠ "s2") ∧
    sessionIdOf (askPayload "s1" "hi" []) = some "s1" ∧
    sessionIdOf (askPayload "s1" "hi" []) ≠ sessionIdOf (askPayload "s2" "hi" []) := by
  refine ⟨rfl, rfl, by decide, ?_, ?_⟩
  · exact C8_fresh_session.1 ⟨id, fun _ => none, "s1", fun _ => .exn "x"⟩
      ⟨some "hi", none⟩ _ rfl
  · exact C8_fresh_session.2 ⟨id, fun _ => none, "s1", fun _ => .exn "x"⟩
      ⟨id, fun _ => none, "s2", fun _ => .exn "x"⟩
      ⟨some "hi", none⟩ ⟨some "hi", none⟩ _ _ rfl rfl (by decide)

/-- Claim C9: an image part with an empty filename is ignored: the request
proceeds exactly as if no image were attached (no extension validation, no
encoding), and any payload sent carries the empty `uploads` list. -/
theorem C9_empty_filename_noop (env : AskEnv) (oq : Option String) (f : FilePart)
    (hf : f.filename = "") :
    ask_bot env ⟨oq, some f⟩ = ask_bot env ⟨oq, none⟩ ∧
    (∀ p, (ask_bot env ⟨oq, some f⟩).sent = some p → uploadsOf p = some (.arr [])) := by
  have h1 : ask_bot env ⟨oq, some f⟩ = ask_bot env ⟨oq, none⟩ := by
    cases oq with
    | none => rfl
    | some q =>
      by_cases hq : q = ""
      · simp [ask_bot, hq]
      · simp [ask_bot, hq, hf]
  refine ⟨h1, ?_⟩
  intro p hp
  rw [h1] at hp
  obtain ⟨q, _, hpe⟩ := ask_sent_noImage env oq p hp
  rw [hpe, uploadsOf_askPayload]

/-- Witness for C9 at the concrete input `question = "hi"` and an image
part with an empty filename. -/
theorem C9_empty_filename_noop_witness :
    (FilePart.filename ⟨"", "image/png", [1, 2, 3]⟩ = "") ∧
    ask_bot ⟨id, fun _ => none, "sid", fun _ => .exn "x"⟩
        ⟨some "hi", some ⟨"", "image/png", [1, 2, 3]⟩⟩ =
      ask_bot ⟨id, fun _ => none, "sid", fun _ => .exn "x"⟩ ⟨some "hi", none⟩ ∧
    ((ask_bot ⟨id, fun _ => none, "sid", fun _ => .exn "x"⟩
        ⟨some "hi", some ⟨"", "image/png", [1, 2, 3]⟩⟩).sent =
      some (askPayload "sid" "hi" [])) ∧
    uploadsOf (askPayload "sid" "hi" []) = some (.arr []) := by
  refine ⟨rfl, ?_, rfl, ?_⟩
  · exact (C9_empty_filename_noop ⟨id, fun _ => none, "sid", fun _ => .exn "x"⟩
      (some "hi") ⟨"", "image/png", [1, 2, 3]⟩ rfl).1
  · exact (C9_empty_filename_noop ⟨id, fun _ => none, "sid", fun _ => .exn "x"⟩
      (some "hi") ⟨"", "image/png", [1, 2, 3]⟩ rfl).2 _ rfl
